import Mathlib

/-!
Verification of the Secure Lockbox System access-control state machine
(`src/Algorithms & Codes/Algorithm.py`, class `SecureLockboxSystem`).

The mutable attributes of the Python object become the fields of
`LockboxState`; the methods that the claims are about become Lean functions
over that state.  Wall-clock time is made explicit: each polling iteration
of `handle_pin_entry` receives the time read by `time.time()` at its top,
and the firing of the background `lockout_timer` thread is an explicit
event.  Python `IndexError` is modelled by `Except.error`.
The SHA-256 hex digest inside `hash_pin` is abstracted as a function
parameter `digest`; everything else is translated directly from the source.
-/

/-- The fixed salt used by `hash_pin` (Algorithm.py line 245). -/
def pinSalt : String := "lockbox_secure_salt_2024"

/-- `hash_pin` (lines 243-246): salted digest of a PIN string.  The
cryptographic hex digest itself is the abstract parameter `digest`. -/
def hash_pin (digest : String → String) (pin : String) : String :=
  digest (pin ++ pinSalt)

/-- The mutable state of a `SecureLockboxSystem` object (lines 114-126 and
219-227), together with three instrumentation counters that record
externally visible actions: `pendingTimers` counts `lockout_timer` threads
that have been started (line 419-421) and have not yet run to completion;
`actuatorTriggers` counts calls of `unlock_mechanism` (line 459);
`adminActivations` counts calls of `admin_mode` (line 463). -/
structure LockboxState where
  correct_path : List Nat
  correct_pin_hash : String
  admin_pin_hash : String
  current_step : Nat
  unlocked : Bool
  system_locked : Bool
  failed_attempts : Nat
  max_attempts : Nat
  lockout_duration : Nat
  led_pins : List Bool
  status_led : Bool
  pendingTimers : Nat
  actuatorTriggers : Nat
  adminActivations : Nat
  deriving DecidableEq

/-- `reset_system` (lines 265-273): switch every position LED off, reset
`current_step` to 0 and `unlocked` to `False`, drive the status LED low. -/
def reset_system (s : LockboxState) : LockboxState :=
  { s with
    led_pins := s.led_pins.map (fun _ => false)
    current_step := 0
    unlocked := false
    status_led := false }

/-- `initiate_lockout` (lines 399-421): set `system_locked = True`, flash
all LEDs ten times (the flashing loop leaves every LED and the status LED
off), and start a fresh daemon thread running `lockout_timer`
(`pendingTimers` grows by one). -/
def initiate_lockout (s : LockboxState) : LockboxState :=
  { s with
    system_locked := true
    led_pins := s.led_pins.map (fun _ => false)
    status_led := false
    pendingTimers := s.pendingTimers + 1 }

/-- Body of `lockout_timer` once its `time.sleep(self.lockout_duration)`
elapses (lines 423-431): clear `system_locked`, zero `failed_attempts`,
then `reset_system`; the thread then finishes (`pendingTimers` drops). -/
def lockout_timer_fire (s : LockboxState) : LockboxState :=
  reset_system
    { s with
      system_locked := false
      failed_attempts := 0
      pendingTimers := s.pendingTimers - 1 }

/-- Processing of one confirmed button press inside `check_tree_buttons`
(lines 314-342).  The source evaluates `self.correct_path[self.current_step]`
with plain list indexing, which raises `IndexError` when
`current_step >= len(correct_path)`; that is the `Except.error` case.
On the correct button: LED `idx` on, `current_step` advanced, and on
completion `unlocked = True` with the status LED high (lines 317-327).
On a wrong button: `failed_attempts` incremented, `reset_system`, and
`initiate_lockout` once `failed_attempts >= max_attempts` (lines 328-336). -/
def process_button_press (s : LockboxState) (idx : Nat) :
    Except Unit LockboxState :=
  match s.correct_path[s.current_step]? with
  | none => Except.error ()
  | some expected =>
    if idx = expected then
      let s1 := { s with
        led_pins := s.led_pins.set idx true
        current_step := s.current_step + 1 }
      if s1.correct_path.length ≤ s1.current_step then
        Except.ok { s1 with unlocked := true, status_led := true }
      else
        Except.ok s1
    else
      let s1 := reset_system { s with failed_attempts := s.failed_attempts + 1 }
      if s1.max_attempts ≤ s1.failed_attempts then
        Except.ok (initiate_lockout s1)
      else
        Except.ok s1

/-- `check_tree_buttons` (lines 301-342): return at once when
`system_locked` is set (lines 303-304); otherwise scan button indices
0..30 in order and process every press confirmed by the debounce resample,
`pressed idx = true` meaning button `idx` is held through its debounce.
The locked flag is checked only at the start of the pass, not again
between presses of the same pass. -/
def check_tree_buttons (s : LockboxState) (pressed : Nat → Bool) :
    Except Unit LockboxState :=
  if s.system_locked then Except.ok s
  else
    (List.range 31).foldlM
      (fun st idx =>
        if pressed idx then process_button_press st idx else Except.ok st)
      s

/-- Outcome tag for one invocation of `handle_pin_entry`. -/
inductive PinOutcome where
  | success
  | adminSuccess
  | wrongPin
  | timeout
  | exhausted
  deriving DecidableEq

/-- Result of `handle_pin_entry`: the state after the call, the Python
return value, the outcome tag, and the contents of the local
`entered_pin` buffer when the call ends (the buffer is a local variable,
so any `return` discards it: the buffer is empty afterwards). -/
structure PinResult where
  state : LockboxState
  returnValue : Bool
  outcome : PinOutcome
  buffer : String
  deriving DecidableEq

/-- The `len(entered_pin) == 4` branch of `handle_pin_entry`
(lines 456-473): compare the salted hash of the entered digits against the
stored primary hash, then the stored admin hash; on the primary match call
`unlock_mechanism` and return `True`; on the admin match call `admin_mode`
and return `True`; otherwise increment `failed_attempts`, initiate lockout
at the threshold, and return `False`. -/
def process_complete_pin (digest : String → String) (s : LockboxState)
    (pin : String) : PinResult :=
  if hash_pin digest pin = s.correct_pin_hash then
    { state := { s with actuatorTriggers := s.actuatorTriggers + 1 }
      returnValue := true
      outcome := PinOutcome.success
      buffer := "" }
  else if hash_pin digest pin = s.admin_pin_hash then
    { state := { s with adminActivations := s.adminActivations + 1 }
      returnValue := true
      outcome := PinOutcome.adminSuccess
      buffer := "" }
  else
    let s1 := { s with failed_attempts := s.failed_attempts + 1 }
    let s2 := if s1.max_attempts ≤ s1.failed_attempts then initiate_lockout s1 else s1
    { state := s2
      returnValue := false
      outcome := PinOutcome.wrongPin
      buffer := "" }

/-- The polling loop of `handle_pin_entry` (lines 441-478).  Each list
entry is one loop iteration: the wall-clock time `t` read by `time.time()`
at its top and the key, if any, returned by `scan_keypad` in that
iteration.  `startTime` is the running `start_time`, which is reset to the
current time after each accepted key that does not complete the PIN
(line 476).  The timeout test `time.time() - start_time > pin_timeout`
(line 443) is checked first, with `pin_timeout = 30`. -/
def handle_pin_entry_loop (digest : String → String) (s : LockboxState)
    (startTime : Nat) (entered : String) :
    List (Nat × Option Char) → PinResult
  | [] =>
    { state := s, returnValue := false
      outcome := PinOutcome.exhausted, buffer := entered }
  | (t, k) :: rest =>
    if 30 < t - startTime then
      { state := s, returnValue := false
        outcome := PinOutcome.timeout, buffer := "" }
    else
      match k with
      | some c =>
        let entered1 := entered.push c
        if entered1.length = 4 then process_complete_pin digest s entered1
        else handle_pin_entry_loop digest s t entered1 rest
      | none => handle_pin_entry_loop digest s startTime entered rest

/-- Entry point of `handle_pin_entry` (lines 433-439): empty digit buffer,
`start_time` taken at phase entry (time measured relative to it). -/
def handle_pin_entry (digest : String → String) (s : LockboxState)
    (events : List (Nat × Option Char)) : PinResult :=
  handle_pin_entry_loop digest s 0 "" events

/-- Abstract events driving one iteration of `main_loop` (lines 495-515):
a scan pass observing a single confirmed button press, a PIN-entry phase
that accumulated four digits, a PIN-entry phase that timed out, or the
firing of a pending `lockout_timer` thread. -/
inductive LbEvent where
  | buttonPress (idx : Nat)
  | pinAttempt (pin : String)
  | pinTimeout
  | lockoutExpire
  deriving DecidableEq

/-- One `main_loop` iteration under a single abstract event.  The
`if not self.system_locked` guard of line 501 (and the guard at the top of
`check_tree_buttons`, lines 303-304) makes every input event a no-op while
locked.  A `buttonPress idx` is a `check_tree_buttons` pass in which only
button `idx` (one of the 31 wired buttons) is confirmed.  A
`pinAttempt pin` requires `unlocked` (line 506) and runs the completed
four-digit comparison followed by the `reset_system` that `main_loop`
performs after `handle_pin_entry` returns (lines 507-513).  A `pinTimeout`
is `handle_pin_entry` returning `False` by its timeout branch, again
followed by `reset_system`.  `lockoutExpire` is the `lockout_timer` thread
finishing its sleep. -/
def step (digest : String → String) (s : LockboxState) :
    LbEvent → Except Unit LockboxState
  | LbEvent.buttonPress idx =>
    if s.system_locked then Except.ok s
    else if idx < 31 then process_button_press s idx
    else Except.ok s
  | LbEvent.pinAttempt pin =>
    if s.system_locked then Except.ok s
    else if s.unlocked then
      Except.ok (reset_system (process_complete_pin digest s pin).state)
    else Except.ok s
  | LbEvent.pinTimeout =>
    if s.system_locked then Except.ok s
    else if s.unlocked then Except.ok (reset_system s)
    else Except.ok s
  | LbEvent.lockoutExpire => Except.ok (lockout_timer_fire s)

/-- Run of the main loop over a list of abstract events; a Python
`IndexError` aborts the run. -/
def run (digest : String → String) (s : LockboxState) :
    List LbEvent → Except Unit LockboxState
  | [] => Except.ok s
  | e :: rest =>
    match step digest s e with
    | Except.ok s1 => run digest s1 rest
    | Except.error err => Except.error err

/-- An event is a failure in state `s` when it is a confirmed press of a
wired button different from `correct_path[current_step]` while not locked
(lines 328-332), or a completed four-digit PIN matching neither stored
hash while in the PIN-entry phase (lines 465-468). -/
def is_failure_event (digest : String → String) (s : LockboxState) :
    LbEvent → Bool
  | LbEvent.buttonPress idx =>
    !s.system_locked && decide (idx < 31) &&
      (match s.correct_path[s.current_step]? with
       | some expected => decide (idx ≠ expected)
       | none => false)
  | LbEvent.pinAttempt pin =>
    !s.system_locked && s.unlocked &&
      decide (hash_pin digest pin ≠ s.correct_pin_hash) &&
      decide (hash_pin digest pin ≠ s.admin_pin_hash)
  | LbEvent.pinTimeout => false
  | LbEvent.lockoutExpire => false

/-- The state right after `__init__` with the default configuration
(lines 114-126 and 223-227): `tree_sequence = [0, 1, 3, 7, 15]`, the two
default PIN hashes, `max_attempts = 3`, `lockout_duration = 300`, all 31
LEDs off. -/
def initLockbox (digest : String → String) : LockboxState :=
  { correct_path := [0, 1, 3, 7, 15]
    correct_pin_hash := hash_pin digest "1234"
    admin_pin_hash := hash_pin digest "9999"
    current_step := 0
    unlocked := false
    system_locked := false
    failed_attempts := 0
    max_attempts := 3
    lockout_duration := 300
    led_pins := List.replicate 31 false
    status_led := false
    pendingTimers := 0
    actuatorTriggers := 0
    adminActivations := 0 }

/-- The `main_loop` condition (lines 501 and 506) under which
`handle_pin_entry` is invoked: not locked and `unlocked` set. -/
def main_loop_enters_pin_entry (s : LockboxState) : Bool :=
  !s.system_locked && s.unlocked

/-- Extract the state of a successful run, with a default for the error
case (used only to name concrete intermediate states). -/
def okD (d : LockboxState) : Except Unit LockboxState → LockboxState
  | Except.ok s => s
  | Except.error _ => d

/-- Helper: a failure event is never the cooldown-expiry event. -/
theorem is_failure_event_ne_expire (digest : String → String)
    (s : LockboxState) (e : LbEvent)
    (h : is_failure_event digest s e = true) : e ≠ LbEvent.lockoutExpire := by
  intro he
  subst he
  simp [is_failure_event] at h

/-- Helper: how one `main_loop` iteration changes `failed_attempts`:
zeroed by a `lockout_timer` firing, incremented by exactly one on a
failure event, and unchanged otherwise. -/
theorem step_failed_attempts (digest : String → String) (s : LockboxState)
    (e : LbEvent) (s1 : LockboxState) (h : step digest s e = Except.ok s1) :
    s1.failed_attempts =
      if e = LbEvent.lockoutExpire then 0
      else if is_failure_event digest s e then s.failed_attempts + 1
      else s.failed_attempts := by
  cases e with
  | buttonPress idx =>
    simp only [step] at h
    by_cases hl : s.system_locked
    · rw [if_pos hl] at h
      cases h
      simp [is_failure_event, hl]
    · rw [if_neg hl] at h
      by_cases hi : idx < 31
      · rw [if_pos hi] at h
        rcases hg : s.correct_path[s.current_step]? with _ | expected
        · simp only [process_button_press, hg] at h
          exact (Except.noConfusion h)
        · simp only [process_button_press, hg] at h
          by_cases he : idx = expected
          · rw [if_pos he] at h
            split at h <;> cases h <;> simp [is_failure_event, hg, he, hl, hi]
          · rw [if_neg he] at h
            split at h <;> cases h <;>
              simp [is_failure_event, hg, he, hl, hi, reset_system, initiate_lockout]
      · rw [if_neg hi] at h
        cases h
        simp [is_failure_event, hi]
  | pinAttempt pin =>
    simp only [step] at h
    by_cases hl : s.system_locked
    · rw [if_pos hl] at h
      cases h
      simp [is_failure_event, hl]
    · rw [if_neg hl] at h
      by_cases hu : s.unlocked
      · rw [if_pos hu] at h
        cases h
        simp only [process_complete_pin]
        by_cases h1 : hash_pin digest pin = s.correct_pin_hash
        · rw [if_pos h1]
          simp [is_failure_event, h1, reset_system]
        · rw [if_neg h1]
          by_cases h2 : hash_pin digest pin = s.admin_pin_hash
          · rw [if_pos h2]
            simp [is_failure_event, h2, reset_system]
          · rw [if_neg h2]
            by_cases h3 : s.max_attempts ≤ s.failed_attempts + 1
            · simp [is_failure_event, hl, hu, h1, h2, h3, reset_system,
                initiate_lockout]
            · simp [is_failure_event, hl, hu, h1, h2, h3, reset_system]
      · rw [if_neg hu] at h
        cases h
        simp [is_failure_event, hu]
  | pinTimeout =>
    simp only [step] at h
    by_cases hl : s.system_locked
    · rw [if_pos hl] at h
      cases h
      simp [is_failure_event]
    · rw [if_neg hl] at h
      by_cases hu : s.unlocked
      · rw [if_pos hu] at h
        cases h
        simp [is_failure_event, reset_system]
      · rw [if_neg hu] at h
        cases h
        simp [is_failure_event]
  | lockoutExpire =>
    simp only [step] at h
    cases h
    simp [lockout_timer_fire, reset_system]

/-- Helper: no `main_loop` iteration changes `max_attempts`. -/
theorem step_max_attempts (digest : String → String) (s : LockboxState)
    (e : LbEvent) (s1 : LockboxState) (h : step digest s e = Except.ok s1) :
    s1.max_attempts = s.max_attempts := by
  cases e with
  | buttonPress idx =>
    simp only [step] at h
    by_cases hl : s.system_locked
    · rw [if_pos hl] at h
      cases h
      rfl
    · rw [if_neg hl] at h
      by_cases hi : idx < 31
      · rw [if_pos hi] at h
        rcases hg : s.correct_path[s.current_step]? with _ | expected
        · simp only [process_button_press, hg] at h
          exact (Except.noConfusion h)
        · simp only [process_button_press, hg] at h
          by_cases he : idx = expected
          · rw [if_pos he] at h
            split at h <;> cases h <;> rfl
          · rw [if_neg he] at h
            split at h <;> cases h <;> simp [reset_system, initiate_lockout]
      · rw [if_neg hi] at h
        cases h
        rfl
  | pinAttempt pin =>
    simp only [step] at h
    by_cases hl : s.system_locked
    · rw [if_pos hl] at h
      cases h
      rfl
    · rw [if_neg hl] at h
      by_cases hu : s.unlocked
      · rw [if_pos hu] at h
        cases h
        simp only [process_complete_pin]
        by_cases h1 : hash_pin digest pin = s.correct_pin_hash
        · rw [if_pos h1]
          simp [reset_system]
        · rw [if_neg h1]
          by_cases h2 : hash_pin digest pin = s.admin_pin_hash
          · rw [if_pos h2]
            simp [reset_system]
          · rw [if_neg h2]
            by_cases h3 : s.max_attempts ≤ s.failed_attempts + 1
            · simp [h3, reset_system, initiate_lockout]
            · simp [h3, reset_system]
      · rw [if_neg hu] at h
        cases h
        rfl
  | pinTimeout =>
    simp only [step] at h
    by_cases hl : s.system_locked
    · rw [if_pos hl] at h
      cases h
      rfl
    · rw [if_neg hl] at h
      by_cases hu : s.unlocked
      · rw [if_pos hu] at h
        cases h
        simp [reset_system]
      · rw [if_neg hu] at h
        cases h
        rfl
  | lockoutExpire =>
    simp only [step] at h
    cases h
    simp [lockout_timer_fire, reset_system]

/-- Helper: a failure event whose increment reaches the threshold makes
the resulting state locked. -/
theorem step_locked_of_threshold (digest : String → String)
    (s : LockboxState) (e : LbEvent) (s1 : LockboxState)
    (hf : is_failure_event digest s e = true)
    (h : step digest s e = Except.ok s1)
    (hm : s.max_attempts ≤ s.failed_attempts + 1) :
    s1.system_locked = true := by
  cases e with
  | buttonPress idx =>
    simp only [is_failure_event, Bool.and_eq_true, decide_eq_true_eq,
      Bool.not_eq_true'] at hf
    obtain ⟨⟨hl, hi⟩, hmatch⟩ := hf
    rcases hg : s.correct_path[s.current_step]? with _ | expected
    · rw [hg] at hmatch
      simp at hmatch
    · rw [hg] at hmatch
      simp only [decide_eq_true_eq] at hmatch
      simp only [step, hl, if_false, Bool.false_eq_true, if_pos hi] at h
      simp only [process_button_press, hg, if_neg hmatch] at h
      rw [if_pos (by simpa [reset_system] using hm)] at h
      cases h
      rfl
  | pinAttempt pin =>
    simp only [is_failure_event, Bool.and_eq_true, decide_eq_true_eq,
      Bool.not_eq_true'] at hf
    obtain ⟨⟨⟨hl, hu⟩, h1⟩, h2⟩ := hf
    simp only [step, hl, Bool.false_eq_true, if_false, hu, if_true] at h
    simp only [process_complete_pin, if_neg h1, if_neg h2] at h
    rw [if_pos (by simpa using hm)] at h
    cases h
    simp [reset_system, initiate_lockout]
  | pinTimeout => simp [is_failure_event] at hf
  | lockoutExpire => simp [is_failure_event] at hf

/-- Helper: while locked, no event other than the firing of the
`lockout_timer` clears `system_locked` (`main_loop` line 501 and
`check_tree_buttons` lines 303-304 skip all input while locked). -/
theorem step_locked_preserved (digest : String → String) (s : LockboxState)
    (e : LbEvent) (s1 : LockboxState) (hl : s.system_locked = true)
    (hne : e ≠ LbEvent.lockoutExpire)
    (h : step digest s e = Except.ok s1) : s1.system_locked = true := by
  cases e with
  | buttonPress idx =>
    simp only [step, hl, if_true] at h
    cases h
    exact hl
  | pinAttempt pin =>
    simp only [step, hl, if_true] at h
    cases h
    exact hl
  | pinTimeout =>
    simp only [step, hl, if_true] at h
    cases h
    exact hl
  | lockoutExpire => exact absurd rfl hne

/-- C5: for every configured TreePath and every `current_step` within the
path, a confirmed press of a button different from
`TreePath[current_step]` increments `failed_attempts` by exactly one,
resets `current_step` to 0, and sets `unlocked` to false. -/
theorem c5_wrong_button_effect (s : LockboxState) (idx : Nat)
    (h : s.current_step < s.correct_path.length)
    (hne : idx ≠ s.correct_path.get ⟨s.current_step, h⟩) :
    (process_button_press s idx).map
      (fun s1 => (s1.failed_attempts, s1.current_step, s1.unlocked)) =
    Except.ok (s.failed_attempts + 1, 0, false) := by
  have hg : s.correct_path[s.current_step]? =
      some (s.correct_path.get ⟨s.current_step, h⟩) := by
    simp [List.getElem?_eq_getElem h, List.get_eq_getElem]
  simp only [process_button_press, hg, if_neg hne]
  split <;> simp [reset_system, initiate_lockout, Except.map]

theorem c5_witness :
    (process_button_press (initLockbox id) 2).map
      (fun s1 => (s1.failed_attempts, s1.current_step, s1.unlocked)) =
    Except.ok ((initLockbox id).failed_attempts + 1, 0, false) :=
  c5_wrong_button_effect (initLockbox id) 2 (by decide) (by decide)

/-- C6: with the default TreePath `[0, 1, 3, 7, 15]`, pressing buttons
0, 1, 3, 7, 15 in order from the idle baseline sets `unlocked = true` and
makes `main_loop` enter the PIN-entry phase. -/
theorem c6_full_sequence_unlocks :
    (run id (initLockbox id)
        [LbEvent.buttonPress 0, LbEvent.buttonPress 1, LbEvent.buttonPress 3,
         LbEvent.buttonPress 7, LbEvent.buttonPress 15]).map
      (fun s => (s.unlocked, main_loop_enters_pin_entry s)) =
    Except.ok (true, true) := by rfl

/-- C7: once four digits are accumulated in the PIN-entry phase, a primary
hash match triggers the actuator exactly once and returns success; an
admin hash match enters admin mode without touching the actuator and
returns success; any other four-digit PIN returns failure and increments
`failed_attempts` by one; the digit buffer is cleared in all three cases. -/
theorem c7_pin_verification (digest : String → String) (s : LockboxState)
    (pin : String) (_hlen : pin.length = 4) :
    (hash_pin digest pin = s.correct_pin_hash →
      (process_complete_pin digest s pin).returnValue = true ∧
      (process_complete_pin digest s pin).outcome = PinOutcome.success ∧
      (process_complete_pin digest s pin).state.actuatorTriggers =
        s.actuatorTriggers + 1 ∧
      (process_complete_pin digest s pin).state.failed_attempts =
        s.failed_attempts ∧
      (process_complete_pin digest s pin).buffer = "") ∧
    (hash_pin digest pin ≠ s.correct_pin_hash →
      hash_pin digest pin = s.admin_pin_hash →
      (process_complete_pin digest s pin).returnValue = true ∧
      (process_complete_pin digest s pin).outcome = PinOutcome.adminSuccess ∧
      (process_complete_pin digest s pin).state.adminActivations =
        s.adminActivations + 1 ∧
      (process_complete_pin digest s pin).state.actuatorTriggers =
        s.actuatorTriggers ∧
      (process_complete_pin digest s pin).buffer = "") ∧
    (hash_pin digest pin ≠ s.correct_pin_hash →
      hash_pin digest pin ≠ s.admin_pin_hash →
      (process_complete_pin digest s pin).returnValue = false ∧
      (process_complete_pin digest s pin).state.failed_attempts =
        s.failed_attempts + 1 ∧
      (process_complete_pin digest s pin).buffer = "") := by
  refine ⟨fun h1 => ?_, fun h1 h2 => ?_, fun h1 h2 => ?_⟩
  · simp only [process_complete_pin, if_pos h1]
    simp
  · simp only [process_complete_pin, if_neg h1, if_pos h2]
    simp
  · simp only [process_complete_pin, if_neg h1, if_neg h2, and_true,
      true_and]
    split <;> simp [initiate_lockout]

theorem c7_witness :
    (process_complete_pin id (initLockbox id) "1234").state.actuatorTriggers =
      (initLockbox id).actuatorTriggers + 1 ∧
    (process_complete_pin id (initLockbox id) "9999").state.actuatorTriggers =
      (initLockbox id).actuatorTriggers ∧
    (process_complete_pin id (initLockbox id) "0000").state.failed_attempts =
      (initLockbox id).failed_attempts + 1 :=
  ⟨((c7_pin_verification id (initLockbox id) "1234" (by decide)).1
      (by decide)).2.2.1,
   ((c7_pin_verification id (initLockbox id) "9999" (by decide)).2.1
      (by decide) (by decide)).2.2.2.1,
   ((c7_pin_verification id (initLockbox id) "0000" (by decide)).2.2
      (by decide) (by decide)).2.1⟩

/-- C8: when the 30-second inactivity deadline (measured from phase entry
or from the last accepted key, `start_time`) has elapsed before four
digits were collected, the PIN-entry loop returns failure at the top of
its next iteration, the digit buffer is discarded, and `failed_attempts`
is left unchanged. -/
theorem c8_pin_entry_timeout (digest : String → String) (s : LockboxState)
    (startTime : Nat) (entered : String) (t : Nat) (k : Option Char)
    (rest : List (Nat × Option Char))
    (_hlen : entered.length < 4) (ht : 30 < t - startTime) :
    handle_pin_entry_loop digest s startTime entered ((t, k) :: rest) =
      { state := s, returnValue := false
        outcome := PinOutcome.timeout, buffer := "" } ∧
    (handle_pin_entry_loop digest s startTime entered
        ((t, k) :: rest)).state.failed_attempts = s.failed_attempts := by
  constructor
  · simp [handle_pin_entry_loop, ht]
  · simp [handle_pin_entry_loop, ht]

theorem c8_witness :
    handle_pin_entry_loop id (initLockbox id) 0 "" [(31, none)] =
      { state := initLockbox id, returnValue := false
        outcome := PinOutcome.timeout, buffer := "" } ∧
    (handle_pin_entry_loop id (initLockbox id) 0 ""
        [(31, none)]).state.failed_attempts =
      (initLockbox id).failed_attempts :=
  c8_pin_entry_timeout id (initLockbox id) 0 "" 31 none [] (by decide)
    (by decide)

/-- C10: `reset_system` is idempotent, forces `current_step = 0`,
`unlocked = false` and all position LEDs off, and modifies nothing else:
`failed_attempts`, `system_locked`, the loaded credentials (tree path and
PIN hashes) and the remaining fields are unchanged. -/
theorem c10_reset_idempotent_frame (s : LockboxState) :
    reset_system (reset_system s) = reset_system s ∧
    (reset_system s).current_step = 0 ∧
    (reset_system s).unlocked = false ∧
    (∀ b ∈ (reset_system s).led_pins, b = false) ∧
    (reset_system s).status_led = false ∧
    (reset_system s).failed_attempts = s.failed_attempts ∧
    (reset_system s).system_locked = s.system_locked ∧
    (reset_system s).correct_path = s.correct_path ∧
    (reset_system s).correct_pin_hash = s.correct_pin_hash ∧
    (reset_system s).admin_pin_hash = s.admin_pin_hash ∧
    (reset_system s).max_attempts = s.max_attempts ∧
    (reset_system s).lockout_duration = s.lockout_duration ∧
    (reset_system s).pendingTimers = s.pendingTimers ∧
    (reset_system s).actuatorTriggers = s.actuatorTriggers ∧
    (reset_system s).adminActivations = s.adminActivations := by
  refine ⟨?_, rfl, rfl, ?_, rfl, rfl, rfl, rfl, rfl, rfl, rfl, rfl, rfl,
    rfl, rfl⟩
  · simp [reset_system, List.map_map]
  · intro b hb
    simp only [reset_system, List.mem_map] at hb
    obtain ⟨a, _, hab⟩ := hb
    exact hab.symm

/-- C1 (counterexample): two wrong presses leave `failed_attempts = 2`;
then completing the tree sequence and entering the correct primary PIN
performs a successful unlock (the actuator fires once), yet
`failed_attempts` is still 2 afterwards, not 0 — no code path resets the
counter on a successful unlock. -/
theorem c1_counterexample :
    (run id (initLockbox id)
        [LbEvent.buttonPress 2, LbEvent.buttonPress 2,
         LbEvent.buttonPress 0, LbEvent.buttonPress 1, LbEvent.buttonPress 3,
         LbEvent.buttonPress 7, LbEvent.buttonPress 15,
         LbEvent.pinAttempt "1234"]).map
      (fun s => (s.actuatorTriggers, s.failed_attempts)) =
    Except.ok (1, 2) := by rfl

/-- C1 (amended): across one `main_loop` iteration, `failed_attempts` is
incremented by exactly one on a sequence-validator mismatch (wrong button)
or a credential-verifier mismatch (wrong four-digit PIN), is reset to zero
exactly when the lockout cooldown expires, and is unchanged by every other
event — in particular a successful unlock leaves it unchanged. -/
theorem c1_failed_attempts_accounting (digest : String → String)
    (s : LockboxState) (e : LbEvent) (s1 : LockboxState)
    (h : step digest s e = Except.ok s1) :
    s1.failed_attempts =
      if e = LbEvent.lockoutExpire then 0
      else if is_failure_event digest s e then s.failed_attempts + 1
      else s.failed_attempts :=
  step_failed_attempts digest s e s1 h

theorem c1_witness :
    (okD (initLockbox id)
        (step id (initLockbox id) (LbEvent.buttonPress 2))).failed_attempts =
      1 := by
  have h := c1_failed_attempts_accounting id (initLockbox id)
    (LbEvent.buttonPress 2)
    (okD (initLockbox id) (step id (initLockbox id) (LbEvent.buttonPress 2)))
    (by rfl)
  exact h.trans (by rfl)

/-- C2: after the four correct presses 0, 1, 3, 7 the next scan pass in
which buttons 15 and 16 are both held first completes the sequence
(`current_step` becomes `len(TreePath)`) and then, still in the same pass,
evaluates `correct_path[current_step]` out of bounds: the Python
`IndexError` (the `.error` result) escapes `check_tree_buttons`, and
`main_loop`'s catch-all handler terminates the process. -/
theorem c2_out_of_bounds_read :
    Except.bind
      (run id (initLockbox id)
        [LbEvent.buttonPress 0, LbEvent.buttonPress 1,
         LbEvent.buttonPress 3, LbEvent.buttonPress 7])
      (fun s => check_tree_buttons s (fun i => i == 15 || i == 16)) =
    Except.error () := by rfl

/-- C3: starting from `failed_attempts = 0` and not locked (with the
configured threshold 3), any three consecutive failures in any mix of
wrong button and wrong PIN leave the system locked; while locked, no event
other than the cooldown firing ever clears `system_locked`; the cooldown
firing clears it and zeroes `failed_attempts`; and the configured cooldown
duration is the full 300 seconds. -/
theorem c3_lockout_protocol :
    (∀ (digest : String → String) (s0 s1 s2 s3 : LockboxState)
        (e1 e2 e3 : LbEvent),
        s0.failed_attempts = 0 → s0.system_locked = false →
        s0.max_attempts = 3 →
        step digest s0 e1 = Except.ok s1 →
        is_failure_event digest s0 e1 = true →
        step digest s1 e2 = Except.ok s2 →
        is_failure_event digest s1 e2 = true →
        step digest s2 e3 = Except.ok s3 →
        is_failure_event digest s2 e3 = true →
        s3.system_locked = true) ∧
    (∀ (digest : String → String) (s s1 : LockboxState) (e : LbEvent),
        s.system_locked = true → e ≠ LbEvent.lockoutExpire →
        step digest s e = Except.ok s1 → s1.system_locked = true) ∧
    (∀ (digest : String → String) (s s1 : LockboxState),
        step digest s LbEvent.lockoutExpire = Except.ok s1 →
        s1.system_locked = false ∧ s1.failed_attempts = 0) ∧
    (∀ digest : String → String, (initLockbox digest).lockout_duration = 300) := by
  refine ⟨?_, ?_, ?_, fun _ => rfl⟩
  · intro digest s0 s1 s2 s3 e1 e2 e3 hfa0 _hl0 hmax h1 hf1 h2 hf2 h3 hf3
    have hne1 := is_failure_event_ne_expire digest s0 e1 hf1
    have hne2 := is_failure_event_ne_expire digest s1 e2 hf2
    have hfa1 : s1.failed_attempts = 1 := by
      have := step_failed_attempts digest s0 e1 s1 h1
      rw [if_neg hne1, if_pos hf1, hfa0] at this
      exact this
    have hfa2 : s2.failed_attempts = 2 := by
      have := step_failed_attempts digest s1 e2 s2 h2
      rw [if_neg hne2, if_pos hf2, hfa1] at this
      exact this
    have hmax2 : s2.max_attempts = 3 := by
      rw [step_max_attempts digest s1 e2 s2 h2,
        step_max_attempts digest s0 e1 s1 h1, hmax]
    exact step_locked_of_threshold digest s2 e3 s3 hf3 h3
      (by rw [hmax2, hfa2])
  · intro digest s s1 e hl hne h
    exact step_locked_preserved digest s e s1 hl hne h
  · intro digest s s1 h
    simp only [step] at h
    cases h
    constructor
    · rfl
    · rfl

def c3s1 : LockboxState :=
  okD (initLockbox id) (step id (initLockbox id) (LbEvent.buttonPress 2))

def c3s2 : LockboxState :=
  okD (initLockbox id) (step id c3s1 (LbEvent.buttonPress 2))

def c3s3 : LockboxState :=
  okD (initLockbox id) (step id c3s2 (LbEvent.buttonPress 2))

theorem c3_witness : c3s3.system_locked = true :=
  c3_lockout_protocol.1 id (initLockbox id) c3s1 c3s2 c3s3
    (LbEvent.buttonPress 2) (LbEvent.buttonPress 2) (LbEvent.buttonPress 2)
    rfl rfl rfl (by rfl) (by rfl) (by rfl) (by rfl) (by rfl) (by rfl)

/-- C4: with `failed_attempts = 2`, a single scan pass in which buttons 2
and 5 are both held processes button 2 (third failure, lockout engages,
`system_locked = true`), and then — although locked — still polls and
processes button 5 in the same pass: `failed_attempts` rises to 4 and a
second `lockout_timer` thread is started, contradicting the invariant
that no input is processed and the counter never moves while locked. -/
theorem c4_input_processed_while_locked :
    (Except.bind
      (run id (initLockbox id) [LbEvent.buttonPress 2, LbEvent.buttonPress 2])
      (fun s => check_tree_buttons s (fun i => i == 2 || i == 5))).map
      (fun s => (s.failed_attempts, s.system_locked, s.pendingTimers)) =
    Except.ok (4, true, 2) := by rfl

/-- C9: with `failed_attempts = 2`, one scan pass in which buttons 1 and 2
are both held triggers `initiate_lockout` twice: the second call starts a
second `lockout_timer` thread while the cooldown of the first is still
pending, so two overlapping cooldown tasks exist, each of which will
independently clear `system_locked` and `failed_attempts`. -/
theorem c9_overlapping_cooldown_tasks :
    (Except.bind
      (run id (initLockbox id) [LbEvent.buttonPress 4, LbEvent.buttonPress 4])
      (fun s => check_tree_buttons s (fun i => i == 1 || i == 2))).map
      (fun s => (s.pendingTimers, s.system_locked)) =
    Except.ok (2, true) := by rfl

theorem c10_witness :
    reset_system (reset_system (initLockbox id)) =
      reset_system (initLockbox id) ∧
    (reset_system (initLockbox id)).failed_attempts =
      (initLockbox id).failed_attempts :=
  ⟨(c10_reset_idempotent_frame (initLockbox id)).1,
   (c10_reset_idempotent_frame (initLockbox id)).2.2.2.2.2.1⟩
